import Mathlib

/-!
Verification of the crop-analyzer server (`src/server/server.py`).

The single route handler `analyze_farm` is embedded as a pure function.
External effects are modelled explicitly:

* the JSON request body becomes `RequestData`;
* the two remote collaborators (Earth-Engine imagery and the weather API)
  become a `World` record holding the responses the remote side would give;
* the crop reference table `crop_ndvi_ranges.json` becomes a lookup
  function `String → Option CropRange`;
* the handler's result is the pair (HTTP status, JSON body) together with
  the list of remote calls that were actually issued, in order.

Python numeric values are modelled as rationals (`ℚ`); Python `round(x, 4)`
is modelled as rounding to the nearest multiple of `1/10000` (`round4`).
Python `None` becomes `Option.none`; runtime exceptions raised by operations
on `None` (`.lower()` on `None`, ordered comparison against `None`) are
modelled by `Except String` carrying the CPython error message.
-/

/-- Model of Python `str.lower()` restricted to ASCII: lowercase every
character of the string (the crop-type strings in play are ASCII). -/
def pyLower (s : String) : String :=
  String.mk (s.data.map Char.toLower)

/-- Model of Python `str.capitalize()`: uppercase the first character,
lowercase the rest; the empty string is unchanged. -/
def pyCapitalize (s : String) : String :=
  match s.data with
  | [] => ""
  | c :: cs => String.mk (Char.toUpper c :: cs.map Char.toLower)

/-- Python `repr` of a string as it appears inside a list: single quotes
around the characters. -/
def pyStrRepr (s : String) : String :=
  "\x27" ++ s ++ "\x27"

/-- Python `repr` of a list of strings, as interpolated by an f-string:
`[\x27B11\x27, \x27B2\x27]` style. -/
def pyListRepr (l : List String) : String :=
  "[" ++ String.intercalate ", " (l.map pyStrRepr) ++ "]"

/-- A longitude/latitude vertex of the request polygon. -/
def Point := ℚ × ℚ

/-- The JSON request body.  `crop_type = none` models an absent key,
`some none` models the key present with JSON `null`, `some (some s)` a
string value.  `coordinates = none` models both an absent key and JSON
`null` (Python `data.get` returns `None` in both cases). -/
structure RequestData where
  coordinates : Option (List Point)
  crop_type : Option (Option String)

/-- One entry of `crop_ndvi_ranges.json`: either bound may be missing from
the JSON object, in which case `dict.get` yields `None`. -/
structure CropRange where
  ndvi_min : Option ℚ
  ndvi_max : Option ℚ

/-- The `current` object of the open-meteo response; every field may be
absent.  (The `precipitation` field is requested by the URL but never read
by the handler, so it is not modelled.) -/
structure CurrentWeather where
  temperature_2m : Option ℚ
  relative_humidity_2m : Option ℚ
  rain : Option ℚ
  wind_speed_10m : Option ℚ

/-- Responses of the two remote collaborators, fixed before the handler
runs: the size of the filtered Sentinel-2 collection, the band names of the
median composite, the per-band/per-index spatial means returned by
`reduceRegion` (`none` models a key absent or null in the result dict), and
the weather response's `current` object (`none` models a response without a
`current` key). -/
structure World where
  collectionSize : Nat
  availableBands : List String
  meanStats : String → Option ℚ
  weatherCurrent : Option CurrentWeather

/-- Marker for an outbound remote call actually issued by the handler. -/
inductive Call where
  | imagery
  | weather
deriving DecidableEq, Repr

/-- The `weather` object of a successful response. -/
structure WeatherOut where
  temperature : ℚ
  humidity : Option ℚ
  wind_speed : Option ℚ
  rain : ℚ
deriving DecidableEq, Repr

/-- A successful response body.  `healthy_range` keeps the two looked-up
bounds (the Python code formats them into the string "min - max"; no claim
depends on that textual form). -/
structure Assessment where
  indices : List (String × ℚ)
  weather : WeatherOut
  crop_type : String
  healthy_range : Option ℚ × Option ℚ
  health_status : String
deriving DecidableEq, Repr

/-- A JSON response body: either `{"error": msg}` or a full assessment. -/
inductive Body where
  | error (msg : String)
  | assessment (a : Assessment)
deriving DecidableEq, Repr

/-- CPython message of `None.lower()`. -/
def lowerNoneMsg : String :=
  "\x27NoneType\x27 object has no attribute \x27lower\x27"

/-- CPython message of `float < None`. -/
def ltNoneMsg : String :=
  "\x27<\x27 not supported between instances of \x27float\x27 and \x27NoneType\x27"

/-- CPython message of `float <= None`. -/
def leNoneMsg : String :=
  "\x27<=\x27 not supported between instances of \x27float\x27 and \x27NoneType\x27"

/-- CPython message of `None <= float`. -/
def noneLeMsg : String :=
  "\x27<=\x27 not supported between instances of \x27NoneType\x27 and \x27float\x27"

/-- Python `a < b` where `a` is a float and `b` is a float or `None`:
comparison against `None` raises `TypeError`. -/
def pyLtFloatOpt (a : ℚ) (b : Option ℚ) : Except String Bool :=
  match b with
  | none => Except.error ltNoneMsg
  | some b => Except.ok (decide (a < b))

/-- Python `a <= b` where `a` is a float or `None` and `b` is a float. -/
def pyLeOptFloat (a : Option ℚ) (b : ℚ) : Except String Bool :=
  match a with
  | none => Except.error noneLeMsg
  | some a => Except.ok (decide (a ≤ b))

/-- Python `a <= b` where `a` is a float and `b` is a float or `None`. -/
def pyLeFloatOpt (a : ℚ) (b : Option ℚ) : Except String Bool :=
  match b with
  | none => Except.error leNoneMsg
  | some b => Except.ok (decide (a ≤ b))

/-- Model of Python `round(q, 4)`: round to the nearest multiple of
`1/10000` (ties are a float-representation detail abstracted away; no
claim exercises an exact tie). -/
def round4 (q : ℚ) : ℚ :=
  (round (q * 10000) : ℤ) / 10000

/-- `safe_val` of `server.py`: look the key up in the `reduceRegion`
result; a present value is rounded to 4 decimal places, an absent/null
value normalizes to `0.0`. -/
def safe_val (mean_stats : String → Option ℚ) (name : String) : ℚ :=
  match mean_stats name with
  | some val => round4 val
  | none => 0

/-- Status message of the first classification branch. -/
def stressedMsg (crop_type : String) : String :=
  pyCapitalize crop_type ++ " shows stress or poor vegetation (Unhealthy). OR maybe bare soil."

/-- Status message of the second classification branch. -/
def healthyMsg (crop_type : String) : String :=
  pyCapitalize crop_type ++ " crop appears Healthy."

/-- Status message of the third classification branch. -/
def excessMsg : String :=
  "Excess greenness detected (possibly weeds or dense canopy)."

/-- Lines 104-110 of `server.py`: the three-way NDVI classification,
with Python's evaluation order.  `mean_ndvi < ndvi_min` is evaluated
first and raises if `ndvi_min` is `None`; the chained
`ndvi_min <= mean_ndvi <= ndvi_max` evaluates `ndvi_min <= mean_ndvi`
first and short-circuits, so `ndvi_max` is only compared when
`ndvi_min <= mean_ndvi` holds. -/
def classify_health (mean_ndvi : ℚ) (ndvi_min ndvi_max : Option ℚ)
    (crop_type : String) : Except String String := do
  let c1 ← pyLtFloatOpt mean_ndvi ndvi_min
  if c1 then
    pure (stressedMsg crop_type)
  else
    let c2 ← pyLeOptFloat ndvi_min mean_ndvi
    if c2 then
      let c3 ← pyLeFloatOpt mean_ndvi ndvi_max
      if c3 then pure (healthyMsg crop_type) else pure excessMsg
    else
      pure excessMsg

/-- The five required spectral bands (line 54). -/
def requiredBands : List String := ["B2", "B3", "B4", "B8", "B11"]

/-- Python truthiness of the `coordinates` value: `None` and `[]` are
falsy. -/
def coordsFalsy (coords : Option (List Point)) : Bool :=
  match coords with
  | none => true
  | some l => l.isEmpty

/-- `data.get("crop_type", "")`: the default `""` is used only when the
key is absent; a JSON `null` comes back as Python `None`. -/
def getCropField (o : Option (Option String)) : Option String :=
  o.getD (some "")

/-- The route handler `analyze_farm` of `server.py`, as a pure function of
the request, the crop-range table and the collaborators' responses.
Returns the `(HTTP status, body)` pair and the ordered list of remote
calls issued (one `imagery` marker for the Earth-Engine round-trips, one
`weather` marker for the open-meteo GET).  The `try/except` of lines
24/133 appears as the `Except.error` branches becoming 500 responses. -/
def analyze_farm (crop_ranges : String → Option CropRange)
    (data : RequestData) (w : World) : (Nat × Body) × List Call :=
  match getCropField data.crop_type with
  | none =>
      -- line 27: `None.lower()` raises, caught by the except at line 133
      ((500, Body.error lowerNoneMsg), [])
  | some raw =>
      let crop_type := pyLower raw
      if coordsFalsy data.coordinates then
        ((400, Body.error "No coordinates provided"), [])
      else if crop_type = "" then
        ((400, Body.error "No crop type provided"), [])
      else
        let ndvi_min := (crop_ranges crop_type).bind CropRange.ndvi_min
        let ndvi_max := (crop_ranges crop_type).bind CropRange.ndvi_max
        if w.collectionSize = 0 then
          ((404, Body.error "No Sentinel-2 images found for the given area/date range."),
            [Call.imagery])
        else
          let missing := requiredBands.filter (fun b => ¬ w.availableBands.contains b)
          if missing.isEmpty then
            let current := w.weatherCurrent.getD ⟨none, none, none, none⟩
            let temp := current.temperature_2m.getD 0
            let rain := current.rain.getD 0
            let mean_ndvi := safe_val w.meanStats "NDVI"
            match classify_health mean_ndvi ndvi_min ndvi_max crop_type with
            | Except.error e =>
                ((500, Body.error e), [Call.imagery, Call.weather])
            | Except.ok health_status =>
                ((200, Body.assessment {
                    indices := [
                      ("NDVI", safe_val w.meanStats "NDVI"),
                      ("EVI", safe_val w.meanStats "EVI"),
                      ("NDWI", safe_val w.meanStats "NDWI"),
                      ("MSI", safe_val w.meanStats "MSI"),
                      ("GREEN", safe_val w.meanStats "B3"),
                      ("RED", safe_val w.meanStats "B4"),
                      ("NIR", safe_val w.meanStats "B8")],
                    weather := {
                      temperature := temp,
                      humidity := current.relative_humidity_2m,
                      wind_speed := current.wind_speed_10m,
                      rain := rain },
                    crop_type := crop_type,
                    healthy_range := (ndvi_min, ndvi_max),
                    health_status := health_status }), [Call.imagery, Call.weather])
          else
            ((500, Body.error ("Missing bands: " ++ pyListRepr missing
                ++ ". Available: " ++ pyListRepr w.availableBands)),
              [Call.imagery])

/-- Index means used by the concrete witnesses: the end-to-end scenario of
the spec (NDVI 0.55, EVI 0.4, NDWI 0.1, MSI 0.9, GREEN 0.05, RED 0.07,
NIR 0.3). -/
def sampleStats : String → Option ℚ := fun name =>
  if name = "NDVI" then some (55/100)
  else if name = "EVI" then some (4/10)
  else if name = "NDWI" then some (1/10)
  else if name = "MSI" then some (9/10)
  else if name = "B3" then some (5/100)
  else if name = "B4" then some (7/100)
  else if name = "B8" then some (3/10)
  else none

/-- A fully healthy collaborator world used by the concrete witnesses. -/
def sampleWorld : World :=
  { collectionSize := 3
    availableBands := ["B1", "B2", "B3", "B4", "B8", "B11"]
    meanStats := sampleStats
    weatherCurrent := some ⟨some (285/10), some 40, some 0, some 12⟩ }

/-- A reference table knowing only `wheat`, range 0.3 - 0.7. -/
def sampleRanges : String → Option CropRange := fun c =>
  if c = "wheat" then some ⟨some (3/10), some (7/10)⟩ else none

/-- A well-formed request: a square boundary and crop type `Wheat`. -/
def sampleReq : RequestData :=
  { coordinates := some [((30 : ℚ), (10 : ℚ)), (31, 10), (31, 11), (30, 11)]
    crop_type := some (some "Wheat") }

/-- `Char.ofNat` of a valid scalar value recovers the value. -/
theorem char_toNat_ofNat_valid {n : Nat} (h : n.isValidChar) :
    (Char.ofNat n).toNat = n := by
  simp [Char.ofNat, h, Char.ofNatAux, Char.toNat, UInt32.toNat]

/-- ASCII lowercasing of a character is idempotent. -/
theorem char_toLower_idem (c : Char) : c.toLower.toLower = c.toLower := by
  unfold Char.toLower
  by_cases h : c.toNat ≥ 65 ∧ c.toNat ≤ 90
  · have hvalid : (c.toNat + 32).isValidChar := Or.inl (by omega)
    have hv : (Char.ofNat (c.toNat + 32)).toNat = c.toNat + 32 :=
      char_toNat_ofNat_valid hvalid
    simp only []
    rw [if_pos h, hv, if_neg (by omega)]
  · simp only [h, if_false]

/-- The model of Python `str.lower()` is idempotent. -/
theorem pyLower_idem (s : String) : pyLower (pyLower s) = pyLower s := by
  unfold pyLower
  simp only [List.map_map]
  congr 1
  exact List.map_congr_left fun c _ => char_toLower_idem c

/-- C1: with both reference bounds defined and `ndvi_min ≤ ndvi_max`, the
classification is an inclusive three-way comparison of the mean NDVI:
strictly below the lower bound gives the stressed/unhealthy-or-bare-soil
status, between the bounds inclusively gives the healthy status, and
strictly above the upper bound gives the excessive-greenness status. -/
theorem C1_three_way_classification (mean_ndvi mn mx : ℚ) (crop_type : String)
    (h : mn ≤ mx) :
    (mean_ndvi < mn →
      classify_health mean_ndvi (some mn) (some mx) crop_type
        = Except.ok (stressedMsg crop_type)) ∧
    (mn ≤ mean_ndvi → mean_ndvi ≤ mx →
      classify_health mean_ndvi (some mn) (some mx) crop_type
        = Except.ok (healthyMsg crop_type)) ∧
    (mx < mean_ndvi →
      classify_health mean_ndvi (some mn) (some mx) crop_type
        = Except.ok excessMsg) := by
  refine ⟨fun h1 => ?_, fun h1 h2 => ?_, fun h1 => ?_⟩
  · simp [classify_health, pyLtFloatOpt, h1, Bind.bind, Except.bind, Pure.pure, Except.pure]
  · simp [classify_health, pyLtFloatOpt, pyLeOptFloat, pyLeFloatOpt,
      not_lt.mpr h1, h1, h2, Bind.bind, Except.bind, Pure.pure, Except.pure]
  · have hmn : mn ≤ mean_ndvi := h.trans h1.le
    simp [classify_health, pyLtFloatOpt, pyLeOptFloat, pyLeFloatOpt,
      not_lt.mpr hmn, hmn, not_le.mpr h1, Bind.bind, Except.bind, Pure.pure, Except.pure]

/-- C1 witness: at the spec's boundary values, mean NDVI equal to the lower
bound 0.2 classifies as healthy. -/
theorem C1_witness :
    classify_health (2/10) (some (2/10)) (some (8/10)) "wheat"
      = Except.ok (healthyMsg "wheat") :=
  (C1_three_way_classification (2/10) (2/10) (8/10) "wheat" (by norm_num)).2.1
    le_rfl (by norm_num)

/-- Python truthiness of the extracted `crop_type` field, excluding the
null case: the key absent (default `""`) or an empty string after
lowercasing are falsy. -/
def cropFieldFalsy (rd : RequestData) : Prop :=
  match rd.crop_type with
  | none => True
  | some none => False
  | some (some s) => pyLower s = ""

/-- C2 counterexample: a request whose coordinates field is absent but
whose `crop_type` key holds JSON null is answered with a 500 from
`None.lower()`, not with the 400 `No coordinates provided` error the
claim requires for every request with absent coordinates. -/
theorem C2_counterexample :
    (analyze_farm sampleRanges ⟨none, some none⟩ sampleWorld).1
        = (500, Body.error lowerNoneMsg) ∧
      (analyze_farm sampleRanges ⟨none, some none⟩ sampleWorld).1
        ≠ (400, Body.error "No coordinates provided") := by
  constructor
  · rfl
  · decide

/-- C2 (amended): provided the `crop_type` key is not present with a null
value, a request with falsy (absent or empty) coordinates is rejected with
400 `No coordinates provided`, and a request with truthy coordinates but a
falsy crop type (key absent, or string empty after lowercasing) is
rejected with 400 `No crop type provided`; in both cases no remote call is
issued. -/
theorem C2_validation (cr : String → Option CropRange) (rd : RequestData)
    (w : World) (hnull : rd.crop_type ≠ some none) :
    (coordsFalsy rd.coordinates = true →
      analyze_farm cr rd w = ((400, Body.error "No coordinates provided"), [])) ∧
    (coordsFalsy rd.coordinates = false → cropFieldFalsy rd →
      analyze_farm cr rd w = ((400, Body.error "No crop type provided"), [])) := by
  match hct : rd.crop_type with
  | some none => exact absurd hct hnull
  | none =>
      refine ⟨fun hc => ?_, fun hc hf => ?_⟩ <;>
        simp [analyze_farm, getCropField, hct, hc, pyLower]
  | some (some s) =>
      refine ⟨fun hc => ?_, fun hc hf => ?_⟩
      · simp [analyze_farm, getCropField, hct, hc]
      · have hs : pyLower s = "" := by
          have := hf
          rw [cropFieldFalsy, hct] at this
          exact this
        simp [analyze_farm, getCropField, hct, hc, hs]

/-- C2 witness: a request with an empty coordinates list and crop type
`wheat` is rejected with 400 `No coordinates provided` and no remote call. -/
theorem C2_witness :
    analyze_farm sampleRanges ⟨some [], some (some "wheat")⟩ sampleWorld
      = ((400, Body.error "No coordinates provided"), []) :=
  (C2_validation sampleRanges ⟨some [], some (some "wheat")⟩ sampleWorld
    (by simp)).1 rfl

/-- C3: for a crop type absent from the reference table, both bounds are
looked up as null without error, and — with imagery available and all
bands present — the classification comparison against the null bound
raises, so the handler answers 500 with the raw TypeError message; no
assessment is produced. -/
theorem C3_unknown_crop (cr : String → Option CropRange) (rd : RequestData)
    (w : World) (s : String)
    (hct : rd.crop_type = some (some s))
    (hco : coordsFalsy rd.coordinates = false)
    (hne : ¬ pyLower s = "")
    (hcr : cr (pyLower s) = none)
    (hsz : ¬ w.collectionSize = 0)
    (hbands : ∀ b ∈ requiredBands, b ∈ w.availableBands) :
    analyze_farm cr rd w = ((500, Body.error ltNoneMsg), [Call.imagery, Call.weather]) := by
  simp [analyze_farm, getCropField, hct, hco, hne, hcr, hsz,
    classify_health, pyLtFloatOpt, Bind.bind, Except.bind]
  exact hbands

/-- C3 witness: the sample world with the unknown crop type `corn`. -/
theorem C3_witness :
    analyze_farm sampleRanges { sampleReq with crop_type := some (some "corn") } sampleWorld
      = ((500, Body.error ltNoneMsg), [Call.imagery, Call.weather]) :=
  C3_unknown_crop sampleRanges _ sampleWorld "corn" rfl (by decide) (by decide)
    rfl (by decide) (by decide)

/-- C4: when the imagery provider reports zero matching scenes, the
handler answers 404 with exactly the no-imagery message, and the weather
call is never issued — only the imagery call appears in the trace. -/
theorem C4_no_imagery (cr : String → Option CropRange) (rd : RequestData)
    (w : World) (s : String)
    (hct : rd.crop_type = some (some s))
    (hco : coordsFalsy rd.coordinates = false)
    (hne : ¬ pyLower s = "")
    (hsz : w.collectionSize = 0) :
    analyze_farm cr rd w
        = ((404, Body.error "No Sentinel-2 images found for the given area/date range."),
            [Call.imagery]) ∧
      Call.weather ∉ (analyze_farm cr rd w).2 := by
  have h : analyze_farm cr rd w
      = ((404, Body.error "No Sentinel-2 images found for the given area/date range."),
          [Call.imagery]) := by
    simp [analyze_farm, getCropField, hct, hco, hne, hsz]
  refine ⟨h, ?_⟩
  rw [h]
  decide

/-- C4 witness: the sample request against a world with an empty filtered
collection. -/
theorem C4_witness :
    analyze_farm sampleRanges sampleReq { sampleWorld with collectionSize := 0 }
        = ((404, Body.error "No Sentinel-2 images found for the given area/date range."),
            [Call.imagery]) ∧
      Call.weather
        ∉ (analyze_farm sampleRanges sampleReq { sampleWorld with collectionSize := 0 }).2 :=
  C4_no_imagery sampleRanges sampleReq _ "Wheat" rfl (by decide) (by decide) rfl

/-- C5: when at least one of the five required bands is absent from the
composite, the handler answers 500 with the message listing exactly the
missing bands and the available bands, and the weather call is never
issued. -/
theorem C5_missing_bands (cr : String → Option CropRange) (rd : RequestData)
    (w : World) (s : String)
    (hct : rd.crop_type = some (some s))
    (hco : coordsFalsy rd.coordinates = false)
    (hne : ¬ pyLower s = "")
    (hsz : ¬ w.collectionSize = 0)
    (hmiss : ∃ b ∈ requiredBands, b ∉ w.availableBands) :
    analyze_farm cr rd w
        = ((500, Body.error ("Missing bands: "
              ++ pyListRepr (requiredBands.filter (fun b => ¬ w.availableBands.contains b))
              ++ ". Available: " ++ pyListRepr w.availableBands)),
            [Call.imagery]) ∧
      Call.weather ∉ (analyze_farm cr rd w).2 := by
  obtain ⟨b, hb, hnb⟩ := hmiss
  have hmem : b ∈ requiredBands.filter (fun b => ¬ w.availableBands.contains b) :=
    List.mem_filter.mpr ⟨hb, by simpa using hnb⟩
  have h : analyze_farm cr rd w
      = ((500, Body.error ("Missing bands: "
            ++ pyListRepr (requiredBands.filter (fun b => ¬ w.availableBands.contains b))
            ++ ". Available: " ++ pyListRepr w.availableBands)),
          [Call.imagery]) := by
    simp [analyze_farm, getCropField, hct, hco, hne, hsz]
    intro hall
    exact absurd (hall b hb) (by simpa using hnb)
  refine ⟨h, ?_⟩
  rw [h]
  simp

/-- C5 witness: a composite missing band B11 gives the 500 message listing
`[\x27B11\x27]` as missing, and no weather call. -/
theorem C5_witness :
    analyze_farm sampleRanges sampleReq
        { sampleWorld with availableBands := ["B2", "B3", "B4", "B8"] }
        = ((500, Body.error "Missing bands: [\x27B11\x27]. Available: [\x27B2\x27, \x27B3\x27, \x27B4\x27, \x27B8\x27]"),
            [Call.imagery]) ∧
      Call.weather ∉ (analyze_farm sampleRanges sampleReq
          { sampleWorld with availableBands := ["B2", "B3", "B4", "B8"] }).2 :=
  C5_missing_bands sampleRanges sampleReq
    { sampleWorld with availableBands := ["B2", "B3", "B4", "B8"] } "Wheat"
    rfl (by decide) (by decide) (by decide) ⟨"B11", by decide, by decide⟩

/-- C6: `safe_val` rounds every present provider value to 4 decimal
places and reports exactly 0 for an absent value, never null; in
particular 0.123456789 is reported as 0.1235. -/
theorem C6_value_normalization :
    (∀ (stats : String → Option ℚ) (name : String) (v : ℚ),
      stats name = some v → safe_val stats name = round4 v) ∧
    (∀ (stats : String → Option ℚ) (name : String),
      stats name = none → safe_val stats name = 0) ∧
    round4 (123456789 / 1000000000) = 1235 / 10000 := by
  refine ⟨fun stats name v hv => ?_, fun stats name hv => ?_, ?_⟩
  · simp [safe_val, hv]
  · simp [safe_val, hv]
  · norm_num [round4, round_eq]

/-- C6 witness: a provider value of 0.123456789 for the NDVI key is
reported as 0.1235. -/
theorem C6_witness :
    safe_val (fun _ => some (123456789 / 1000000000)) "NDVI" = 1235 / 10000 := by
  have h := C6_value_normalization
  exact (h.1 _ "NDVI" _ rfl).trans h.2.2

/-- C7: every assessment the handler produces carries exactly the seven
index keys NDVI, EVI, NDWI, MSI, GREEN, RED, NIR, in this order, whatever
the provider responses were. -/
theorem C7_seven_index_keys (cr : String → Option CropRange)
    (rd : RequestData) (w : World) (n : Nat) (a : Assessment) (tr : List Call)
    (h : analyze_farm cr rd w = ((n, Body.assessment a), tr)) :
    a.indices.map Prod.fst = ["NDVI", "EVI", "NDWI", "MSI", "GREEN", "RED", "NIR"] := by
  unfold analyze_farm at h
  rcases hg : getCropField rd.crop_type with _ | raw
  · simp [hg] at h
  · by_cases hco : coordsFalsy rd.coordinates = true
    · simp [hg, hco] at h
    · by_cases hcrop : pyLower raw = ""
      · simp [hg, hco, hcrop] at h
      · by_cases hsz : w.collectionSize = 0
        · simp [hg, hco, hcrop, hsz] at h
        · by_cases hbands : (requiredBands.filter
              (fun b => ¬ w.availableBands.contains b)).isEmpty = true
          · rcases hcl : classify_health (safe_val w.meanStats "NDVI")
                ((cr (pyLower raw)).bind CropRange.ndvi_min)
                ((cr (pyLower raw)).bind CropRange.ndvi_max) (pyLower raw) with e | st
            · rw [hg] at h
              simp only [hco, hcrop, hsz, hbands, if_false, if_true, Bool.false_eq_true] at h
              rw [hcl] at h
              simp at h
            · rw [hg] at h
              simp only [hco, hcrop, hsz, hbands, if_false, if_true, Bool.false_eq_true] at h
              rw [hcl] at h
              injection h with h1 h2
              injection h1 with h3 h4
              injection h4 with h5
              rw [← h5]
              rfl
          · rw [hg] at h
            simp only [hco, hcrop, hsz, hbands, if_false, if_true, Bool.false_eq_true] at h
            simp at h

/-- A reference table with integer bounds, for witnesses that are settled
by kernel evaluation. -/
def plainRanges : String → Option CropRange := fun c =>
  if c = "wheat" then some ⟨some 0, some 1⟩ else none

/-- A world whose `reduceRegion` result is empty (every index mean
normalizes to 0) and whose weather response has no `current` object. -/
def plainWorld : World :=
  { collectionSize := 1
    availableBands := requiredBands
    meanStats := fun _ => none
    weatherCurrent := none }

/-- The assessment produced for the sample request against `plainWorld`
and `plainRanges`. -/
def plainAssessment : Assessment :=
  { indices := [("NDVI", 0), ("EVI", 0), ("NDWI", 0), ("MSI", 0),
      ("GREEN", 0), ("RED", 0), ("NIR", 0)]
    weather := { temperature := 0, humidity := none, wind_speed := none, rain := 0 }
    crop_type := "wheat"
    healthy_range := (some 0, some 1)
    health_status := "Wheat crop appears Healthy." }

/-- C7 witness: a concrete run produces an assessment, and its index keys
are exactly the seven names. -/
theorem C7_witness :
    plainAssessment.indices.map Prod.fst
      = ["NDVI", "EVI", "NDWI", "MSI", "GREEN", "RED", "NIR"] :=
  C7_seven_index_keys plainRanges sampleReq plainWorld 200 plainAssessment
    [Call.imagery, Call.weather] (by decide)

/-- C8: evaluation is invariant under pre-lowercasing the crop type: the
handler lowercases the field itself before validation, lookup,
classification and echoing, so a request with `crop_type` lowercased in
advance gets exactly the same response and trace as the original request,
for every reference table (in particular one with pre-lowercased keys),
request and world. -/
theorem C8_case_insensitive (cr : String → Option CropRange)
    (rd : RequestData) (w : World) :
    analyze_farm cr { rd with crop_type := rd.crop_type.map (Option.map pyLower) } w
      = analyze_farm cr rd w := by
  rcases rd with ⟨co, _ | _ | s⟩
  · rfl
  · rfl
  · show analyze_farm cr ⟨co, some (some (pyLower s))⟩ w
      = analyze_farm cr ⟨co, some (some s)⟩ w
    simp only [analyze_farm, getCropField, Option.getD, pyLower_idem]

/-- C9: a request whose `crop_type` key is present with a null value is
answered 500 with the raw `AttributeError` message from `None.lower()`
(raised before the validation checks run), not with the 400
`No crop type provided` validation error, and no remote call is issued. -/
theorem C9_null_crop_type (cr : String → Option CropRange)
    (rd : RequestData) (w : World) (h : rd.crop_type = some none) :
    analyze_farm cr rd w = ((500, Body.error lowerNoneMsg), []) ∧
      analyze_farm cr rd w ≠ ((400, Body.error "No crop type provided"), []) := by
  have he : analyze_farm cr rd w = ((500, Body.error lowerNoneMsg), []) := by
    unfold analyze_farm getCropField
    rw [h]
    rfl
  refine ⟨he, ?_⟩
  rw [he]
  decide

/-- C9 witness: the sample request with `crop_type: null`. -/
theorem C9_witness :
    analyze_farm sampleRanges { sampleReq with crop_type := some none } sampleWorld
        = ((500, Body.error lowerNoneMsg), []) ∧
      analyze_farm sampleRanges { sampleReq with crop_type := some none } sampleWorld
        ≠ ((400, Body.error "No crop type provided"), []) :=
  C9_null_crop_type sampleRanges _ sampleWorld rfl

/-- Weather-field defaulting in the body a handler run produced: if it is
an assessment, temperature and rain are 0 while humidity and wind_speed
are null.  (Trivially true of error bodies.) -/
def weatherDefaults : Body → Prop
  | Body.error _ => True
  | Body.assessment a =>
      a.weather.temperature = 0 ∧ a.weather.rain = 0 ∧
        a.weather.humidity = none ∧ a.weather.wind_speed = none

/-- C10: missing weather data never causes a failure on its own — the
response status is the same whether or not the weather response has a
`current` object — and when the `current` object is absent, or present
with all fields absent, a successful assessment defaults temperature and
rain to 0 and humidity and wind_speed to null. -/
theorem C10_weather_defaulting (cr : String → Option CropRange)
    (rd : RequestData) (w : World) :
    ((analyze_farm cr rd { w with weatherCurrent := none }).1.1
        = (analyze_farm cr rd w).1.1) ∧
      weatherDefaults (analyze_farm cr rd { w with weatherCurrent := none }).1.2 ∧
      weatherDefaults
        (analyze_farm cr rd { w with weatherCurrent := some ⟨none, none, none, none⟩ }).1.2 := by
  rcases w with ⟨sz, bands, stats, wc⟩
  rcases rd with ⟨co, ct⟩
  rcases hg : getCropField ct with _ | raw
  · simp [analyze_farm, hg, weatherDefaults]
  · by_cases hco : coordsFalsy co = true
    · simp [analyze_farm, hg, hco, weatherDefaults]
    · by_cases hcrop : pyLower raw = ""
      · simp [analyze_farm, hg, hco, hcrop, weatherDefaults]
      · by_cases hsz : sz = 0
        · simp [analyze_farm, hg, hco, hcrop, hsz, weatherDefaults]
        · by_cases hbands : ∀ b ∈ requiredBands, b ∈ bands
          · rcases hcl : classify_health (safe_val stats "NDVI")
                ((cr (pyLower raw)).bind CropRange.ndvi_min)
                ((cr (pyLower raw)).bind CropRange.ndvi_max) (pyLower raw) with e | st
            · simp [analyze_farm, hg, hco, hcrop, hsz, hcl, weatherDefaults, if_pos hbands]
            · simp [analyze_farm, hg, hco, hcrop, hsz, hcl, weatherDefaults, if_pos hbands]
          · simp [analyze_farm, hg, hco, hcrop, hsz, weatherDefaults, if_neg hbands]
